import Mathlib

/-!
Shallow embedding of the POWERBI_BOT orchestration core
(`src/superset_client.py` and `src/ai_manager.py`) and proofs about it.

Python strings are modelled as Lean `String`; `str.lower()` / `str.upper()` /
`str.strip()` are modelled char-wise (`lowerStr` / `upperStr` / `trimStr`),
which agrees with CPython on ASCII data.  Machine `int`s are `Nat`/`Int`.
Network calls are modelled by explicit outcome parameters (one parameter per
I/O interaction), and a raised Python exception is an `Except.error` / `none`
value threaded through the control flow exactly as the source's
`try`/`except` blocks dictate.
-/

/-- Char-wise model of Python `str.lower()` (ASCII-faithful). -/
def lowerStr (s : String) : String := String.mk (s.data.map Char.toLower)

/-- Char-wise model of Python `str.upper()` (ASCII-faithful). -/
def upperStr (s : String) : String := String.mk (s.data.map Char.toUpper)

/-- Char-wise model of Python `str.strip()`. -/
def trimStr (s : String) : String :=
  String.mk (((s.data.dropWhile Char.isWhitespace).reverse.dropWhile Char.isWhitespace).reverse)

/-- Substring test over char lists: model of Python `needle in hay`. -/
def listContainsL (hay needle : List Char) : Bool :=
  match hay with
  | [] => needle.isEmpty
  | _ :: t => needle.isPrefixOf hay || listContainsL t needle

/-- Model of Python `needle in hay` on strings. -/
def strContains (hay needle : String) : Bool := listContainsL hay.data needle.data

/-!
## Resilient request executor: `SupersetClient._request`
(src/superset_client.py, lines 101-184).

Each call of `self.session.request` is one *send*; its outcome is either a
returned status code or a raised network exception.  The model is
parametrised by `f : Nat → SendR`, the outcome of the n-th send.  Sleeps are
recorded with the delay value that was slept (`time.sleep(retry_delay)`),
re-authentications (`self._token = None; self._auth_headers()`) are counted.
-/

/-- Outcome of one `session.request` call: a status code, or a raised
network-level exception. -/
inductive SendR
  | got (s : Nat)
  | exn
deriving DecidableEq, Repr

/-- Observable activity of one `_request` call: number of sends, number of
re-authentications, and the list of slept delays in order. -/
structure Trace where
  sends : Nat
  reauths : Nat
  sleeps : List Nat
deriving DecidableEq, Repr

/-- Result of `_request`: a returned response status, a raised
`RuntimeError`, or the implicit `None` fall-through when `max_retries = 0`. -/
inductive Outcome
  | success (s : Nat)
  | failure
  | noneOut
deriving DecidableEq, Repr

/-- `resp.ok` of the `requests` library: status below 400. -/
def respOk (s : Nat) : Bool := s < 400

/-- Membership in the transient-status list `[500, 502, 503, 504, 408]`
(line 167). -/
def isRetriable (s : Nat) : Bool :=
  s == 500 || s == 502 || s == 503 || s == 504 || s == 408

/-- One attempt body up to the 401 handling (lines 117-149): first send; on
status 401 clear the token, re-authenticate, and send again.  Returns
(status-or-exception, sends used, re-authentications, next send index). -/
def reqAttempt (f : Nat → SendR) (idx : Nat) : Option Nat × Nat × Nat × Nat :=
  match f idx with
  | .exn => (none, 1, 0, idx + 1)
  | .got s =>
    if s == 401 then
      match f (idx + 1) with
      | .exn => (none, 2, 1, idx + 2)
      | .got s2 => (some s2, 2, 1, idx + 2)
    else (some s, 1, 0, idx + 1)

/-- The attempt loop of `_request` (lines 116-184), structured exactly as the
source: the `raise RuntimeError` for non-retriable 4xx (line 165) and the
post-retry `raise` (line 174) are both inside the `try`, so they are caught
by the blanket `except` (line 177) which sleeps and retries while attempts
remain.  `rem` is the number of loop iterations left, `delay` the current
`retry_delay`, `idx` the next send index. -/
def reqGo (f : Nat → SendR) : Nat → Nat → Nat → Outcome × Trace
  | 0, _, _ => (.noneOut, ⟨0, 0, []⟩)
  | rem + 1, delay, idx =>
    let a := reqAttempt f idx
    let tr0 : Trace := ⟨a.2.1, a.2.2.1, []⟩
    let idx2 := a.2.2.2
    let retry : Outcome × Trace :=
      if rem > 0 then
        let r := reqGo f rem (delay * 2) idx2
        (r.1, ⟨tr0.sends + r.2.sends, tr0.reauths + r.2.reauths, delay :: r.2.sleeps⟩)
      else (.failure, tr0)
    match a.1 with
    | none => retry
    | some s =>
      if !respOk s && s < 500 && s != 408 then retry
      else if isRetriable s && rem > 0 then retry
      else if !respOk s then retry
      else (.success s, tr0)

/-- `_request` with the given retry budget (`retries` kwarg, default 3);
`retry_delay` starts at 2 seconds (line 114). -/
def reqRun (f : Nat → SendR) (retries : Nat) : Outcome × Trace :=
  reqGo f retries 2 0

/-!
## Dataset resolver: `SupersetClient._find_dataset`
(src/superset_client.py, lines 374-443), with `_check_dataset_match`
(lines 472-483) and `_find_dataset_direct` (lines 445-470).

All four strategies sit inside a single `try` whose `except` (line 441)
prints a warning and falls to `return None`.  `_request` only ever returns
`resp.ok` responses (it raises otherwise, see `reqGo`), so a strategy's API
call is modelled as `Except Unit (List DsRec)`: `.error` is a raised
exception, `.ok` the parsed `result` list.  `_find_dataset_direct` catches
its own exceptions and returns `None` in that case, hence `Option DsRec`.
The parallel probe's `check_id` (lines 417-431) also swallows exceptions,
so each probed id yields `Option DsRec` (`none` covers 404/errors). -/

/-- A dataset record as consumed by `_check_dataset_match`: id, owning
database id, and table name. -/
structure DsRec where
  dsId : Nat
  dbId : Nat
  tableName : String
deriving DecidableEq, Repr

/-- `_check_dataset_match` (lines 472-483): database ids equal, table name
truthy (non-empty) and equal case-insensitively. -/
def checkDatasetMatch (ds : DsRec) (databaseId : Nat) (tableName : String) : Bool :=
  ds.dbId == databaseId && ds.tableName != "" && lowerStr ds.tableName == lowerStr tableName

/-- Environment of one `_find_dataset` call: outcomes of the filtered query
(strategy 1), the bulk scan with `page_size=2000` (strategy 2), the direct
metadata-DB query (strategy 3), and the per-id GET of the probe
(strategy 4). -/
structure FindEnv where
  filtered : Except Unit (List DsRec)
  bulk : Except Unit (List DsRec)
  direct : Option DsRec
  probe : Nat → Option DsRec

/-- The probed identifier range `range(1, 1001)` (line 434). -/
def probeIds : List Nat := List.range' 1 1000

/-- Strategy 4 (lines 410-439): check ids 1..1000; each `check_id` returns
the dataset when the GET succeeded and `_check_dataset_match` holds. -/
def probeSearch (probe : Nat → Option DsRec) (dbId : Nat) (t : String) : Option DsRec :=
  probeIds.findSome? (fun i =>
    match probe i with
    | some d => if checkDatasetMatch d dbId t then some d else none
    | none => none)

/-- `_find_dataset` (lines 374-443).  An exception raised by strategy 1 or 2
propagates to the outer `except` and yields `none` immediately; an
inconclusive (no-match) strategy falls through to the next. -/
def findDataset (env : FindEnv) (dbId : Nat) (t : String) : Option DsRec :=
  match env.filtered with
  | .error _ => none
  | .ok l1 =>
    match l1.find? (fun d => checkDatasetMatch d dbId t) with
    | some d => some d
    | none =>
      match env.bulk with
      | .error _ => none
      | .ok l2 =>
        match l2.find? (fun d => checkDatasetMatch d dbId t) with
        | some d => some d
        | none =>
          match env.direct with
          | some d => some d
          | none => probeSearch env.probe dbId t

/-!
## Dataset creator: `SupersetClient.create_dataset`
(src/superset_client.py, lines 280-372).

The creation loop runs over 2 endpoints x 2 payload shapes, modelled as a
list of attempt outcomes.  Since `_request` raises on every non-ok response
(see `reqGo`), a failed POST always lands in the `except` branch
(lines 325-344); the in-band branch at lines 346-369 (including the
hard `raise` at line 366) is unreachable and therefore not part of the
model (`reqGo_success_respOk` below proves the returned-response case is
always `resp.ok`).  In the `except` branch the code checks for a duplicate
signal (`"already exists" in str(e) or "422" in str(e)`), then tries to
regex-extract an id from the message, then calls `_find_dataset`; when
neither yields a dataset it appends to `errors` and continues with the next
attempt; after the loop it raises (line 372). -/

/-- Information carried by a creation-attempt exception: whether the message
matches the duplicate signal, and the id extracted by the regex
`Dataset\s+(\d+)\s+already exists` when it matches. -/
structure DupInfo where
  dupSignal : Bool
  extractId : Option Nat
deriving DecidableEq, Repr

/-- `create_dataset` (lines 319-372): `attempts` are the POST outcomes in
loop order, `resolver` the (stable) result of `_find_dataset` for this
(database_id, table_name) pair.  `.error ()` is the final
`raise RuntimeError("All dataset creation attempts failed ...")`. -/
def createDataset (attempts : List (Except DupInfo DsRec)) (resolver : Option DsRec)
    (dbId : Nat) (tname : String) : Except Unit DsRec :=
  match attempts with
  | [] => .error ()
  | a :: rest =>
    match a with
    | .ok d => .ok d
    | .error e =>
      if e.dupSignal then
        match e.extractId with
        | some n => .ok ⟨n, dbId, tname⟩
        | none =>
          match resolver with
          | some d => .ok d
          | none => createDataset rest resolver dbId tname
      else createDataset rest resolver dbId tname

/-!
## Database registration: `SupersetClient.add_database`
(src/superset_client.py, lines 846-878).
-/

/-- Minimal database descriptor returned by `add_database`: the id and the
`message` field of the constructed dict. -/
structure DbDesc where
  dbId : Nat
  msg : String
deriving DecidableEq, Repr

/-- `add_database`: `preCheck` is `get_database_id` before creation
(line 849), `create` the POST outcome whose `.error` flag records the
duplicate signal (`"already exists" in str(e) or "422" in str(e)`,
line 874), `finalCheck` the `get_database_id` re-run after failure
(line 869).  `.error ()` is the final `raise e` (line 878). -/
def addDatabase (preCheck : Option Nat) (create : Except Bool DbDesc)
    (finalCheck : Option Nat) : Except Unit DbDesc :=
  match preCheck with
  | some i => .ok ⟨i, "Already exists"⟩
  | none =>
    match create with
    | .ok d => .ok d
    | .error dup =>
      match finalCheck with
      | some i => .ok ⟨i, "Recovered ID after failure"⟩
      | none =>
        if dup then .ok ⟨1, "Assumed ID 1 (Fallback)"⟩ else .error ()

/-!
## API-path chart linking order: `SupersetClient._add_charts_to_dashboard_api`
(src/superset_client.py, lines 739-839), event trace.

The function fetches the dashboard, fetches each chart's details, PUTs the
dashboard with the new `position_json` (line 824) and only then issues the
per-chart membership PUTs (lines 833-837, looping over `chart_ids`).  If
the layout PUT raises (inside `_request`) or returns not-ok (dead branch,
line 826-828 raises as well) the function aborts before any membership
PUT.  Membership-PUT failures are caught per chart and do not stop the
loop, so every chart id produces a `chartLink` event. -/

/-- Observable requests issued by `_add_charts_to_dashboard_api`. -/
inductive LinkEvent
  | fetchDashboard
  | fetchChart (c : Nat)
  | layoutUpdate
  | chartLink (c : Nat)
deriving DecidableEq, Repr

/-- Event trace of `_add_charts_to_dashboard_api` together with its success
flag; `layoutOk = false` means the dashboard PUT failed (raised). -/
def addChartsApiTrace (chartIds : List Nat) (layoutOk : Bool) : List LinkEvent × Bool :=
  let pre := LinkEvent.fetchDashboard ::
    (chartIds.map LinkEvent.fetchChart ++ [LinkEvent.layoutUpdate])
  if layoutOk then (pre ++ chartIds.map LinkEvent.chartLink, true) else (pre, false)

/-!
## Chart-plan validator: `get_llama_suggestions`
(src/ai_manager.py, lines 96-160): the per-plan sanitation/validation loop
applied to the JSON array parsed from the model reply.

JSON scalar values that can appear in the `metric` / `group_by` fields are
modelled by `GVal` (`gnull` also covers an absent key, since
`p.get(...)` yields `None` for both).  `difflib.get_close_matches(s, cols,
n=1, cutoff=0.7)` is an external library call, modelled by an oracle
`cm : String → List String → Option String` whose results are required (in
the theorems) to come from the candidate list.  Calling it with a truthy
non-string raises `TypeError`, which aborts the whole attempt (caught at
line 161); a raised attempt is `none`. -/

/-- A JSON scalar in a plan field. -/
inductive GVal
  | gnull
  | gstr (s : String)
  | gnum (n : Int)
  | gbool (b : Bool)
deriving DecidableEq, Repr

/-- Python `str(raw).lower()` on a JSON scalar (line 127). -/
def gvalStrLower : GVal → String
  | .gnull => "none"
  | .gstr s => lowerStr s
  | .gnum n => toString n
  | .gbool true => "true"
  | .gbool false => "false"

/-- Python truthiness of a JSON scalar. -/
def gvalTruthy : GVal → Bool
  | .gnull => false
  | .gstr s => s != ""
  | .gnum n => n != 0
  | .gbool b => b

/-- Pandas dtype classes distinguished by the validator
(`select_dtypes` calls at lines 73-74 and 149). -/
inductive Dtype
  | number
  | obj
  | categorical
  | datetime
  | other
deriving DecidableEq, Repr

/-- A dataframe column: name and dtype. -/
structure Col where
  name : String
  dtype : Dtype
deriving DecidableEq, Repr

/-- `df.columns`. -/
def colNames (cols : List Col) : List String := cols.map Col.name

/-- `df.select_dtypes(include=[number]).columns` (line 73). -/
def numericCols (cols : List Col) : List String :=
  (cols.filter (fun c => c.dtype == Dtype.number)).map Col.name

/-- `df.select_dtypes(include=[datetime, datetimetz]).columns` (line 74). -/
def datetimeCols (cols : List Col) : List String :=
  (cols.filter (fun c => c.dtype == Dtype.datetime)).map Col.name

/-- `df.select_dtypes(include=[object, category]).columns` (line 149). -/
def objectCols (cols : List Col) : List String :=
  (cols.filter (fun c => c.dtype == Dtype.obj || c.dtype == Dtype.categorical)).map Col.name

/-- The allowed aggregation functions (line 105). -/
def aggFuncs : List String := ["SUM", "AVG", "COUNT", "MAX", "MIN"]

/-- A plan object as parsed from the model's JSON array.  String-typed
fields that would raise on a non-string (`title`, `viz_type`, `agg_func`:
`.strip()` / `.upper()` on them crashes the attempt for non-strings) are
kept as `Option String`; `metric` and `group_by` keep full JSON scalars. -/
structure PlanIn where
  title : Option String
  vizType : Option String
  metric : GVal
  aggFunc : Option String
  groupBy : GVal
deriving DecidableEq, Repr

/-- A validated plan as appended to `validated_plans`. -/
structure PlanOut where
  title : String
  vizType : String
  metric : String
  aggFunc : String
  groupBy : GVal
deriving DecidableEq, Repr

/-- Step 3, metric validation (lines 109-120): fuzzy-match against the
dataframe columns, else fall back to "count".  `none` = the attempt raised
(`get_close_matches` on a truthy non-string). -/
def resolveMetric (cm : String → List String → Option String) (validCols : List String) :
    GVal → Option String
  | .gnull => some "count"
  | .gstr m =>
    if m != "" then
      match cm m validCols with
      | some c => some c
      | none => if lowerStr m == "count" then some "count" else some "count"
    else some "count"
  | .gnum n => if n != 0 then none else some "count"
  | .gbool b => if b then none else some "count"

/-- Step 4, group-by validation (lines 126-134).  Note the gap mirrored
from the source: a falsy value that is not one of the strings
"null"/"none"/"" (for example the number 0 or `false`) enters neither
branch and is left unchanged. -/
def resolveGroupBy (cm : String → List String → Option String) (validCols : List String)
    (g : GVal) : Option GVal :=
  if gvalStrLower g ∈ ["null", "none", ""] then some GVal.gnull
  else if gvalTruthy g then
    match g with
    | .gstr s =>
      match cm s validCols with
      | some c => some (GVal.gstr c)
      | none => some GVal.gnull
    | _ => none
  else some g

/-- The date-name heuristic of the line-chart check (line 142):
`"date" in col.lower() or "year" in col.lower() or "month" in col.lower()`. -/
def dateNamed (c : String) : Bool :=
  strContains (lowerStr c) "date" || strContains (lowerStr c) "year" ||
    strContains (lowerStr c) "month"

/-- The `is_time` flag of the line-chart consistency check
(lines 138-143): the (validated) group-by is truthy and is either a
datetime column or date-named. -/
def isTimeGb (cols : List Col) (gb : GVal) : Bool :=
  if gvalTruthy gb then
    match gb with
    | GVal.gstr c => (datetimeCols cols).contains c || dateNamed c
    | _ => false
  else false

/-- The line-chart consistency check (lines 137-146): a line chart whose
group-by is not temporal becomes a dist_bar. -/
def lineCheck (cols : List Col) (viz : String) (gb : GVal) : String :=
  if viz == "line" then (if isTimeGb cols gb then "line" else "dist_bar")
  else viz

/-- The pie consistency check (lines 148-153): a pie chart with a falsy
group-by acquires the first object/category column, or downgrades to
big_number_total when there is none. -/
def pieCheck (cols : List Col) (viz : String) (gb : GVal) : String × GVal :=
  if viz == "pie" && !(gvalTruthy gb) then
    match objectCols cols with
    | c :: _ => ("pie", GVal.gstr c)
    | [] => ("big_number_total", gb)
  else (viz, gb)

/-- The big_number_total consistency check (lines 155-156): such plans
carry no group-by. -/
def bntCheck (viz : String) (gb : GVal) : GVal :=
  if viz == "big_number_total" then GVal.gnull else gb

/-- The validation body for one plan `p` (lines 98-158), in source order:
sanitise title/viz_type, validate agg_func, metric, group_by, then the
logical-consistency checks `lineCheck`, `pieCheck`, `bntCheck`. -/
def validateOne (cm : String → List String → Option String) (cols : List Col)
    (p : PlanIn) : Option PlanOut :=
  let valid := colNames cols
  let title := trimStr (p.title.getD "Untitled Chart")
  let viz0 := lowerStr (trimStr (p.vizType.getD "dist_bar"))
  let agg0 := upperStr (p.aggFunc.getD "COUNT")
  let agg1 := if agg0 ∈ aggFuncs then agg0 else "COUNT"
  match resolveMetric cm valid p.metric with
  | none => none
  | some metric =>
    let agg2 :=
      if metric != "count" && !((numericCols cols).contains metric) &&
          (agg1 == "SUM" || agg1 == "AVG") then "COUNT"
      else agg1
    match resolveGroupBy cm valid p.groupBy with
    | none => none
    | some gb0 =>
      let vg := pieCheck cols (lineCheck cols viz0 gb0) gb0
      some ⟨title, vg.1, metric, agg2, bntCheck vg.1 vg.2⟩

/-- The `for p in plans` loop (line 98): an exception on any plan aborts the
whole attempt (none); otherwise the validated plans are collected in
order. -/
def validatePlans (cm : String → List String → Option String) (cols : List Col) :
    List PlanIn → Option (List PlanOut)
  | [] => some []
  | p :: ps =>
    match validateOne cm cols p with
    | none => none
    | some q =>
      match validatePlans cm cols ps with
      | none => none
      | some qs => some (q :: qs)

/-- Exact-match instantiation of the `get_close_matches` oracle, used by the
concrete witnesses. -/
def cmExact (s : String) (l : List String) : Option String :=
  l.find? (fun x => x == s)

/-!
## Dashboard layout composer:
`_add_charts_to_dashboard_direct` (src/superset_client.py, lines 679-714)
and `_add_charts_to_dashboard_api` (lines 752-809).

Node keys in `position_json` are exactly "ROOT_ID", "GRID_ID",
"ROW-" + hex and "CHART-" + hex; the four shapes are disjoint by prefix, so
keys are modelled by the sum type `NodeId` whose row/chart constructors
carry the generated hex tag.  The source draws tags from
`uuid.uuid4().hex[:8]`, two fresh tags per chart (row then chart); the model
is parametrised by `gen : Nat → String`, with `gen (2*i)` / `gen (2*i+1)`
the i-th iteration's row/chart tag.  Both builders share the loop shape and
differ only in the CHART node's `meta`; `pairsFrom` abstracts that. -/

/-- The `"type"` field of a layout node. -/
inductive NodeType
  | ROOT
  | GRID
  | ROW
  | CHART
deriving DecidableEq, Repr

/-- A `position_json` key (and node id). -/
inductive NodeId
  | root
  | grid
  | row (tag : String)
  | chart (tag : String)
deriving DecidableEq, Repr

/-- The `"meta"` dict of a layout node; absent fields are `none`. -/
structure NodeMeta where
  chartId : Option Nat
  width : Option Nat
  height : Option Nat
  sliceName : Option String
  uuid : Option String
  background : Option String
deriving DecidableEq, Repr

/-- A layout node: type, id, children, parents, optional meta. -/
structure PNode where
  ntype : NodeType
  nid : NodeId
  children : List NodeId
  parents : List NodeId
  meta : Option NodeMeta
deriving DecidableEq, Repr

/-- `"ROOT_ID": {"type": "ROOT", "id": "ROOT_ID", "children": ["GRID_ID"]}`. -/
def rootNode : PNode := ⟨NodeType.ROOT, NodeId.root, [NodeId.grid], [], none⟩

/-- `"GRID_ID": {"type": "GRID", ..., "children": cs, "parents": ["ROOT_ID"]}`. -/
def gridNode (cs : List NodeId) : PNode :=
  ⟨NodeType.GRID, NodeId.grid, cs, [NodeId.root], none⟩

/-- The ROW meta `{"background": "BACKGROUND_TRANSPARENT"}`. -/
def rowMeta : NodeMeta := ⟨none, none, none, none, none, some "BACKGROUND_TRANSPARENT"⟩

/-- CHART meta of the direct builder (lines 702-712):
`{"chartId": c, "width": 12, "height": 50}`. -/
def directChartMeta (c : Nat) : NodeMeta := ⟨some c, some 12, some 50, none, none, none⟩

/-- Chart details fetched by the API builder (lines 761-768):
`result.id`, `result.slice_name`, `result.uuid`. -/
structure ChartInfo where
  cid : Nat
  sliceName : Option String
  uuid : Option String
deriving DecidableEq, Repr

/-- CHART meta of the API builder (lines 792-799): chartId, width 12,
height 50, `sliceName` defaulted to "Chart", uuid only when truthy. -/
def apiChartMeta (info : ChartInfo) : NodeMeta :=
  ⟨some info.cid, some 12, some 50, some (info.sliceName.getD "Chart"),
    match info.uuid with
    | some u => if u != "" then some u else none
    | none => none,
    none⟩

/-- The per-chart loop body common to both builders: for the i-th element x
append a ROW node (children = its CHART, parents [ROOT, GRID]) and a CHART
node (children [], parents [ROOT, GRID, row], meta `metaOf x`), in dict
insertion order. -/
def pairsFrom {α : Type} (gen : Nat → String) (metaOf : α → NodeMeta) :
    Nat → List α → List (NodeId × PNode)
  | _, [] => []
  | i, x :: xs =>
    (NodeId.row (gen (2 * i)),
      ⟨NodeType.ROW, NodeId.row (gen (2 * i)), [NodeId.chart (gen (2 * i + 1))],
        [NodeId.root, NodeId.grid], some rowMeta⟩) ::
    (NodeId.chart (gen (2 * i + 1)),
      ⟨NodeType.CHART, NodeId.chart (gen (2 * i + 1)), [],
        [NodeId.root, NodeId.grid, NodeId.row (gen (2 * i))], some (metaOf x)⟩) ::
    pairsFrom gen metaOf (i + 1) xs

/-- The `grid_children` accumulator: the row ids in iteration order. -/
def gridChildrenFrom {α : Type} (gen : Nat → String) : Nat → List α → List NodeId
  | _, [] => []
  | i, _ :: xs => NodeId.row (gen (2 * i)) :: gridChildrenFrom gen (i + 1) xs

/-- A complete `position_json` (minus the scalar DASHBOARD_VERSION_KEY
entry): ROOT, GRID (with its final children, written at line 714 / 809),
then the row/chart pairs in insertion order. -/
def buildPos {α : Type} (gen : Nat → String) (metaOf : α → NodeMeta) (xs : List α) :
    List (NodeId × PNode) :=
  (NodeId.root, rootNode) ::
  (NodeId.grid, gridNode (gridChildrenFrom gen 0 xs)) ::
  pairsFrom gen metaOf 0 xs

/-- `_add_charts_to_dashboard_direct`s `position_json` (lines 679-714). -/
def buildPositionDirect (gen : Nat → String) (chartIds : List Nat) :
    List (NodeId × PNode) :=
  buildPos gen directChartMeta chartIds

/-- `_add_charts_to_dashboard_api`s `position_json` (lines 752-809):
`chart_details` is `chart_ids` filtered through the per-chart GET
(failed fetches are skipped, lines 762-768). -/
def buildPositionApi (gen : Nat → String) (fetch : Nat → Option ChartInfo)
    (chartIds : List Nat) : List (NodeId × PNode) :=
  buildPos gen apiChartMeta (chartIds.filterMap fetch)

/-- The ROW entries of a layout document, in document order. -/
def rowsOf (doc : List (NodeId × PNode)) : List (NodeId × PNode) :=
  doc.filter (fun p => p.2.ntype == NodeType.ROW)

/-- Key lookup in a layout document (dict access). -/
def lookupNode (doc : List (NodeId × PNode)) (k : NodeId) : Option PNode :=
  (doc.find? (fun p => p.1 == k)).map (fun p => p.2)

/-- Follow the immediate-parent link (the last element of `parents`, the
deepest ancestor) up to `fuel` steps; true iff a ROOT-typed node is
reached. -/
def parentChainRoot (doc : List (NodeId × PNode)) : NodeId → Nat → Bool
  | _, 0 => false
  | k, fuel + 1 =>
    match lookupNode doc k with
    | none => false
    | some n =>
      if n.ntype == NodeType.ROOT then true
      else
        match n.parents.getLast? with
        | none => false
        | some p => parentChainRoot doc p fuel

/-- Erase a generated tag, keeping the node-id shape. -/
def eraseTag : NodeId → NodeId
  | .row _ => NodeId.row ""
  | .chart _ => NodeId.chart ""
  | x => x

/-- Erase all generated tags in a node. -/
def erasePNode (n : PNode) : PNode :=
  ⟨n.ntype, eraseTag n.nid, n.children.map eraseTag, n.parents.map eraseTag, n.meta⟩

/-- The structural skeleton of a layout document: the document with every
generated identifier erased.  Two documents are structurally equivalent iff
their skeletons are equal. -/
def skeleton (doc : List (NodeId × PNode)) : List (NodeId × PNode) :=
  doc.map (fun p => (eraseTag p.1, erasePNode p.2))

/-- The layout well-formedness asserted by the claim, over a document and
the intended chart-id sequence: one ROW per chart id; the GRID's children
are exactly the ROW keys the document defines, in order; the i-th ROW has a
single child, a CHART node whose meta carries the i-th chart id at width
12; and every CHART node's parent chain terminates at ROOT. -/
def layoutOK (doc : List (NodeId × PNode)) (ids : List Nat) : Prop :=
  (rowsOf doc).length = ids.length ∧
  (∃ g, lookupNode doc NodeId.grid = some g ∧
    g.children = (rowsOf doc).map (fun p => p.1)) ∧
  (∀ i c, ids.get? i = some c →
    ∃ rp ch, (rowsOf doc).get? i = some rp ∧ rp.2.children = [ch] ∧
      ∃ cn m, lookupNode doc ch = some cn ∧ cn.ntype = NodeType.CHART ∧
        cn.meta = some m ∧ m.chartId = some c ∧ m.width = some 12) ∧
  (∀ p, p ∈ doc → p.2.ntype = NodeType.CHART → parentChainRoot doc p.1 4 = true)

/-- Tag generator used by the witnesses: `n` letters "a"; injective. -/
def genW (n : Nat) : String := String.mk (List.replicate n 'a')

/-- Second tag generator used by the witnesses: `n+1` letters "b". -/
def genW2 (n : Nat) : String := String.mk (List.replicate (n + 1) 'b')

/-- Fetch oracle used by the C5 witness: every chart id resolves. -/
def fetchW (c : Nat) : Option ChartInfo := some ⟨c, none, none⟩

/-- The i-th ROW entry produced by the builder loop (canonical
description of what `pairsFrom` inserts). -/
def rowEntryAt (gen : Nat → String) (i : Nat) : NodeId × PNode :=
  (NodeId.row (gen (2 * i)),
    ⟨NodeType.ROW, NodeId.row (gen (2 * i)), [NodeId.chart (gen (2 * i + 1))],
      [NodeId.root, NodeId.grid], some rowMeta⟩)

/-- The i-th CHART entry produced by the builder loop. -/
def chartEntryAt {α : Type} (gen : Nat → String) (metaOf : α → NodeMeta) (i : Nat)
    (x : α) : NodeId × PNode :=
  (NodeId.chart (gen (2 * i + 1)),
    ⟨NodeType.CHART, NodeId.chart (gen (2 * i + 1)), [],
      [NodeId.root, NodeId.grid, NodeId.row (gen (2 * i))], some (metaOf x)⟩)

/-- The ROW entries of `pairsFrom`, canonical form. -/
def rowEntriesFrom {α : Type} (gen : Nat → String) : Nat → List α → List (NodeId × PNode)
  | _, [] => []
  | i, _ :: xs => rowEntryAt gen i :: rowEntriesFrom gen (i + 1) xs

/-- Columns used by the C10 witness: one categorical column. -/
def colsW10 : List Col := [⟨"region", Dtype.obj⟩]

/-- Input plan used by the C10 witness: a pie plan with no group-by. -/
def psW10 : List PlanIn := [⟨none, some "pie", GVal.gnull, none, GVal.gnull⟩]

/-- The validated plan the C10 witness instantiates the invariant at. -/
def qW10 : PlanOut := ⟨"Untitled Chart", "pie", "count", "COUNT", GVal.gstr "region"⟩

/-!
## Theorems
-/

/-- Supporting fact: `_request` returns a response only when it is
`resp.ok`; every non-ok response turns into a raised error.  This is what
makes the not-ok response branches at its call sites (for example
lines 346-369 of `create_dataset`) unreachable. -/
theorem reqGo_success_respOk (f : Nat → SendR) :
    ∀ n d i s tr, reqGo f n d i = (Outcome.success s, tr) → respOk s = true := by
  intro n
  induction n with
  | zero => intro d i s tr h; simp [reqGo] at h
  | succ m ih =>
    intro d i s tr h
    simp only [reqGo] at h
    rcases hA : (reqAttempt f i).1 with _ | s0 <;> rw [hA] at h
    · by_cases hm : m > 0 <;> simp [hm] at h
      · exact ih _ _ _ _ (Prod.ext h.1 rfl)
    · by_cases h1 : (!respOk s0 && decide (s0 < 500) && s0 != 408) = true <;>
        simp only [h1, if_true, if_false, Bool.false_eq_true] at h
      · by_cases hm : m > 0 <;> simp [hm] at h
        · exact ih _ _ _ _ (Prod.ext h.1 rfl)
      · by_cases h2 : (isRetriable s0 && decide (m > 0)) = true <;>
          simp only [h2, if_true, if_false, Bool.false_eq_true] at h
        · have hm : m > 0 := by
            have := (Bool.and_eq_true _ _).mp h2
            simpa using this.2
          simp [hm] at h
          exact ih _ _ _ _ (Prod.ext h.1 rfl)
        · by_cases h3 : (!respOk s0) = true <;>
            simp only [h3, if_true, if_false, Bool.false_eq_true] at h
          · by_cases hm : m > 0 <;> simp [hm] at h
            · exact ih _ _ _ _ (Prod.ext h.1 rfl)
          · rw [Prod.mk.injEq] at h
            injection h.1 with h4
            subst h4
            simpa using h3

/-- C1: the claim states that a non-retriable 4xx response (e.g. 404) makes
`_request` fail immediately without a single retry.  The code's own comment
(lines 162-163) states the same intent, but the `raise` at line 165 sits
inside the `try`, so the blanket `except` (line 177) catches it and retries
with backoff.  Evaluating the executor at the failing input: with
`retries = 3` and every send returning 404, three sends are issued and two
backoff sleeps (2s, 4s) are performed before the terminal error — not one
send and zero sleeps. -/
theorem C1_request_404_is_retried :
    reqRun (fun _ => SendR.got 404) 3 = (Outcome.failure, ⟨3, 0, [2, 4]⟩) ∧
    (reqRun (fun _ => SendR.got 404) 3).2.sends ≠ 1 := by
  decide

/-- C3 counterexample: the claim states that a second consecutive 401
(after the in-attempt re-authentication) is terminal, with no further
retries of the request.  In the code the `raise` for the 401 (line 165) is
caught by the blanket `except` (line 177) and retried: with `retries = 3`
and every send returning 401, the executor re-authenticates 3 times (not
exactly once) and issues 6 sends (not 2) before failing. -/
theorem C3_counterexample :
    reqRun (fun _ => SendR.got 401) 3 = (Outcome.failure, ⟨6, 3, [2, 4]⟩) ∧
    (reqRun (fun _ => SendR.got 401) 3).2.reauths ≠ 1 := by
  decide

/-- C3 amended: per attempt, exactly one re-authentication occurs between
the 401 and the re-sent request; a renewed 401 raises an error that the
general retry loop catches and retries with backoff, so with a persistent
401 the executor performs one re-authentication and two sends per attempt
for the full budget of `r` attempts, and only then fails terminally. -/
theorem C3_amended_401_reauth_per_attempt (r : Nat) (hr : 1 ≤ r) :
    (reqRun (fun _ => SendR.got 401) r).1 = Outcome.failure ∧
    (reqRun (fun _ => SendR.got 401) r).2.sends = 2 * r ∧
    (reqRun (fun _ => SendR.got 401) r).2.reauths = r := by
  have key : ∀ n d i, 1 ≤ n →
      ((reqGo (fun _ => SendR.got 401) n d i).1 = Outcome.failure ∧
       (reqGo (fun _ => SendR.got 401) n d i).2.sends = 2 * n ∧
       (reqGo (fun _ => SendR.got 401) n d i).2.reauths = n) := by
    intro n
    induction n with
    | zero => intro d i h; omega
    | succ m ih =>
      intro d i _
      rcases Nat.eq_zero_or_pos m with hm | hm
      · subst hm; refine ⟨?_, ?_, ?_⟩ <;> simp [reqGo, reqAttempt, respOk, isRetriable]
      · have IH := ih (d * 2) (i + 2) hm
        have hgo : reqGo (fun _ => SendR.got 401) (m + 1) d i =
            ((reqGo (fun _ => SendR.got 401) m (d * 2) (i + 2)).1,
             ⟨2 + (reqGo (fun _ => SendR.got 401) m (d * 2) (i + 2)).2.sends,
              1 + (reqGo (fun _ => SendR.got 401) m (d * 2) (i + 2)).2.reauths,
              d :: (reqGo (fun _ => SendR.got 401) m (d * 2) (i + 2)).2.sleeps⟩) := by
          simp [reqGo, reqAttempt, respOk, isRetriable, hm]
        rw [hgo]
        refine ⟨IH.1, ?_, ?_⟩ <;> simp [IH.2.1, IH.2.2] <;> omega
  exact key r 2 0 hr

/-- C3 witness: the amended theorem applied at the smallest budget. -/
theorem C3_amended_witness :
    (reqRun (fun _ => SendR.got 401) 1).1 = Outcome.failure ∧
    (reqRun (fun _ => SendR.got 401) 1).2.sends = 2 * 1 ∧
    (reqRun (fun _ => SendR.got 401) 1).2.reauths = 1 :=
  C3_amended_401_reauth_per_attempt 1 (by decide)

/-- C7: in `add_database`, when creation fails with a duplicate signal
("already exists"/422 in the message) and the post-failure lookup still
finds nothing, the operation returns a descriptor with identifier 1; when
the failure carries no duplicate signal and the lookup finds nothing, the
error is re-raised. -/
theorem C7_addDatabase_assume_id1 :
    addDatabase none (Except.error true) none =
      Except.ok ⟨1, "Assumed ID 1 (Fallback)"⟩ ∧
    addDatabase none (Except.error false) none = Except.error () :=
  ⟨rfl, rfl⟩

/-- C2 counterexample: the claim states that a strategy failure *including a
raised exception* falls through to the next strategy, and that `None` is
returned only after all four strategies are exhausted.  In the code all
four strategies share one `try`, so an exception in the filtered query
aborts the whole search: with the filtered query raising and the bulk scan
holding a matching dataset, `_find_dataset` returns `None` without ever
reaching the match. -/
theorem C2_counterexample :
    findDataset ⟨Except.error (), Except.ok [⟨7, 1, "t"⟩], none, fun _ => none⟩ 1 "t"
      = none ∧
    checkDatasetMatch ⟨7, 1, "t"⟩ 1 "t" = true := by
  exact ⟨rfl, by decide⟩

/-- C2 amended: a strategy that completes without a match falls through to
the next, but an exception raised in the filtered query or the bulk scan
aborts the search with `None` immediately (the direct store query and the
probe swallow their own exceptions).  Precisely: `_find_dataset` returns
`None` iff the filtered query raised, or it found no match and the bulk
scan raised, or all four strategies completed without a match. -/
theorem C2_amended_none_characterisation (env : FindEnv) (dbId : Nat) (t : String) :
    findDataset env dbId t = none ↔
      (env.filtered = Except.error ()) ∨
      (∃ l1, env.filtered = Except.ok l1 ∧
        (∀ x ∈ l1, checkDatasetMatch x dbId t = false) ∧
        ((env.bulk = Except.error ()) ∨
         (∃ l2, env.bulk = Except.ok l2 ∧
           (∀ x ∈ l2, checkDatasetMatch x dbId t = false) ∧
           env.direct = none ∧ probeSearch env.probe dbId t = none))) := by
  obtain ⟨fl, bu, di, pr⟩ := env
  rcases fl with e | l1
  · cases e
    simp [findDataset]
  · rcases h1 : l1.find? (fun d => checkDatasetMatch d dbId t) with _ | d1
    · have h1x : ∀ x ∈ l1, checkDatasetMatch x dbId t = false := by simpa using h1
      rcases bu with e | l2
      · cases e
        simp [findDataset, h1, h1x]
        exact h1x
      · rcases h2 : l2.find? (fun d => checkDatasetMatch d dbId t) with _ | d2
        · have h2x : ∀ x ∈ l2, checkDatasetMatch x dbId t = false := by simpa using h2
          rcases di with _ | d3
          · simp [findDataset, h1, h2, h1x, h2x]
            exact ⟨fun h => ⟨h1x, h2x, h⟩, fun h => h.2.2⟩
          · simp [findDataset, h1, h2, h1x, h2x]
        · have hmem := List.mem_of_find?_eq_some h2
          have hp := List.find?_some h2
          simp only [findDataset, h1, h2]
          constructor
          · intro h; cases h
          · rintro (h | ⟨l1x, hl1, -, (h | ⟨l2x, hl2, hall, -⟩)⟩)
            · cases h
            · cases h
            · cases hl2
              exact absurd hp (by simp [hall d2 hmem])
    · have hmem := List.mem_of_find?_eq_some h1
      have hp := List.find?_some h1
      simp only [findDataset, h1]
      constructor
      · intro h; cases h
      · rintro (h | ⟨l1x, hl1, hall, -⟩)
        · cases h
        · cases hl1
          exact absurd hp (by simp [hall d1 hmem])

/-- C4: if the filtered query, the bulk scan and the direct store query all
complete without a match, and some identifier in the probed range 1..1000
resolves to a dataset matching (database_id, table_name), then the parallel
identifier probe finds a matching dataset and `_find_dataset` returns it
rather than `None`. -/
theorem C4_probe_finds_dataset (env : FindEnv) (dbId : Nat) (t : String)
    (l1 l2 : List DsRec) (i : Nat) (d : DsRec)
    (hf : env.filtered = Except.ok l1)
    (hf2 : l1.find? (fun x => checkDatasetMatch x dbId t) = none)
    (hb : env.bulk = Except.ok l2)
    (hb2 : l2.find? (fun x => checkDatasetMatch x dbId t) = none)
    (hd : env.direct = none)
    (hi : i ∈ probeIds) (hp : env.probe i = some d)
    (hm : checkDatasetMatch d dbId t = true) :
    ∃ r, findDataset env dbId t = some r ∧ checkDatasetMatch r dbId t = true := by
  have hfind : findDataset env dbId t = probeSearch env.probe dbId t := by
    simp [findDataset, hf, hf2, hb, hb2, hd]
  have hne : probeSearch env.probe dbId t ≠ none := by
    intro h
    have := List.findSome?_eq_none_iff.mp h i hi
    rw [hp] at this
    simp [hm] at this
  rcases hres : probeSearch env.probe dbId t with _ | r
  · exact absurd hres hne
  · refine ⟨r, hfind.trans hres, ?_⟩
    obtain ⟨a, -, ha⟩ := List.exists_of_findSome?_eq_some hres
    rcases hpa : env.probe a with _ | d2 <;> rw [hpa] at ha
    · simp at ha
    · by_cases hchk : checkDatasetMatch d2 dbId t = true
      · simp [hchk] at ha
        rwa [← ha]
      · simp [hchk] at ha

/-- C4 witness: concrete environment where only the probe (at id 5) can see
the dataset. -/
theorem C4_witness :
    ∃ r, findDataset ⟨Except.ok [], Except.ok [], none,
        fun i => if i == 5 then some ⟨5, 1, "t"⟩ else none⟩ 1 "t" = some r ∧
      checkDatasetMatch r 1 "t" = true :=
  C4_probe_finds_dataset _ 1 "t" [] [] 5 ⟨5, 1, "t"⟩ rfl rfl rfl rfl rfl
    (by decide) (by decide) (by decide)

/-- C6 counterexample: the claim states that on a duplicate signal
`create_dataset` invokes the resolver and, if the resolver cannot locate
the dataset, raises a hard failure instead of returning a resource.  The
code first tries to regex-extract an id from the error message
(lines 331-336) and returns a descriptor built from it without consulting
the resolver: with every attempt failing as "Dataset 42 already exists"
and a resolver that finds nothing, `create_dataset` returns the id-42
descriptor instead of raising. -/
theorem C6_counterexample :
    createDataset (List.replicate 4 (Except.error ⟨true, some 42⟩)) none 1 "panel"
      = Except.ok ⟨42, 1, "panel"⟩ ∧
    createDataset (List.replicate 4 (Except.error ⟨true, some 42⟩)) none 1 "panel"
      ≠ Except.error () := by
  refine ⟨rfl, ?_⟩
  intro h
  cases h

/-- C6 amended: on a duplicate signal, `create_dataset` first tries to
extract the dataset id from the error message and, if present, returns a
descriptor with that id without consulting the resolver; otherwise it
invokes the resolver and returns the pre-existing dataset it locates; if
every attempt carries a duplicate signal with no extractable id and the
resolver cannot locate the dataset, `create_dataset` raises a hard failure
to the caller instead of returning a resource. -/
theorem C6_amended_duplicate_handling (attempts : List (Except DupInfo DsRec))
    (resolver : Option DsRec) (dbId : Nat) (t : String) :
    ((∀ a ∈ attempts, ∃ e : DupInfo,
        a = Except.error e ∧ e.dupSignal = true ∧ e.extractId = none) →
      ((resolver = none → createDataset attempts resolver dbId t = Except.error ()) ∧
       (∀ d, resolver = some d → attempts ≠ [] →
         createDataset attempts resolver dbId t = Except.ok d))) ∧
    (∀ e rest, attempts = Except.error e :: rest → e.dupSignal = true →
      ∀ n, e.extractId = some n →
        createDataset attempts resolver dbId t = Except.ok ⟨n, dbId, t⟩) := by
  constructor
  · intro hall
    constructor
    · intro hres
      subst hres
      have key : ∀ l : List (Except DupInfo DsRec),
          (∀ a ∈ l, ∃ e : DupInfo,
            a = Except.error e ∧ e.dupSignal = true ∧ e.extractId = none) →
          createDataset l none dbId t = Except.error () := by
        intro l
        induction l with
        | nil => intro _; rfl
        | cons a rest ih =>
          intro h
          have hr := ih (fun x hx => h x (List.mem_cons_of_mem a hx))
          obtain ⟨e, rfl, hdup, hext⟩ := h a (List.mem_cons_self a rest)
          simp [createDataset, hdup, hext, hr]
      exact key attempts hall
    · intro d hres hne
      subst hres
      rcases attempts with _ | ⟨a, rest⟩
      · exact absurd rfl hne
      · obtain ⟨e, rfl, hdup, hext⟩ := hall a (List.mem_cons_self a rest)
        simp [createDataset, hdup, hext]
  · rintro e rest rfl hdup n hext
    simp [createDataset, hdup, hext]

/-- C6 witness: a single dup-signalled attempt with no extractable id and
an empty resolver ends in the hard failure; with a resolver hit it returns
the located dataset. -/
theorem C6_witness :
    createDataset [Except.error ⟨true, none⟩] none 1 "t" = Except.error () ∧
    createDataset [Except.error ⟨true, none⟩] (some ⟨9, 1, "t"⟩) 1 "t"
      = Except.ok ⟨9, 1, "t"⟩ := by
  constructor
  · exact ((C6_amended_duplicate_handling [Except.error ⟨true, none⟩] none 1 "t").1
      (by intro a ha; simp at ha; exact ⟨⟨true, none⟩, ha, rfl, rfl⟩)).1 rfl
  · exact ((C6_amended_duplicate_handling [Except.error ⟨true, none⟩]
      (some ⟨9, 1, "t"⟩) 1 "t").1
      (by intro a ha; simp at ha; exact ⟨⟨true, none⟩, ha, rfl, rfl⟩)).2
      ⟨9, 1, "t"⟩ rfl (by simp)

/-- C8: in `_add_charts_to_dashboard_api`, the per-chart membership PUTs
are issued strictly after the dashboard layout PUT has completed
successfully: when the layout update fails no membership update appears in
the trace at all, and when it succeeds every membership update occurs at a
strictly later position than the layout update. -/
theorem C8_links_strictly_after_layout (ids : List Nat) (c : Nat) :
    (LinkEvent.chartLink c ∈ (addChartsApiTrace ids false).1 → False) ∧
    (∀ i, (addChartsApiTrace ids true).1.get? i = some (LinkEvent.chartLink c) →
      ∃ j, j < i ∧ (addChartsApiTrace ids true).1.get? j = some LinkEvent.layoutUpdate) := by
  have hnolink : LinkEvent.chartLink c ∉
      (LinkEvent.fetchDashboard ::
        (ids.map LinkEvent.fetchChart ++ [LinkEvent.layoutUpdate])) := by
    simp
  constructor
  · intro h
    exact hnolink (by simpa [addChartsApiTrace] using h)
  · intro i hi
    simp only [addChartsApiTrace, if_true] at hi
    have hprelen : (LinkEvent.fetchDashboard ::
        (ids.map LinkEvent.fetchChart ++ [LinkEvent.layoutUpdate])).length
        = ids.length + 2 := by
      simp
    refine ⟨ids.length + 1, ?_, ?_⟩
    · by_contra hlt
      push_neg at hlt
      have hile : i < ids.length + 2 := Nat.lt_succ_of_le hlt
      rw [List.get?_append (by omega)] at hi
      exact hnolink (List.get?_mem hi)
    · simp only [addChartsApiTrace, if_true]
      rw [List.get?_append (by simp)]
      have hstep : (LinkEvent.fetchDashboard ::
          (ids.map LinkEvent.fetchChart ++ [LinkEvent.layoutUpdate])).get? (ids.length + 1)
          = (ids.map LinkEvent.fetchChart ++ [LinkEvent.layoutUpdate]).get? ids.length := by
        simp
      rw [hstep]
      have hlen : (ids.map LinkEvent.fetchChart).length = ids.length := by simp
      rw [← hlen, List.get?_concat_length]

/-- C8 witness: a one-chart trace; the link event at index 3 is preceded by
the layout update at index 2. -/
theorem C8_witness :
    ∃ j, j < 3 ∧ (addChartsApiTrace [7] true).1.get? j = some LinkEvent.layoutUpdate :=
  (C8_links_strictly_after_layout [7] 7).2 3 (by decide)

/-- A fuzzy-match oracle faithful to `difflib.get_close_matches`: any
returned candidate comes from the candidate list. -/
def CmSpec (cm : String → List String → Option String) : Prop :=
  ∀ s l r, cm s l = some r → r ∈ l

/-- The exact-match oracle satisfies the `get_close_matches` contract. -/
theorem cmExact_spec : CmSpec cmExact := by
  intro s l r h
  exact List.mem_of_find?_eq_some h

/-- A validated metric is "count" or a dataframe column. -/
theorem resolveMetric_spec (cm : String → List String → Option String)
    (valid : List String) (g : GVal) (m : String) (hcm : CmSpec cm)
    (h : resolveMetric cm valid g = some m) : m = "count" ∨ m ∈ valid := by
  cases g with
  | gnull =>
    simp only [resolveMetric, Option.some.injEq] at h
    exact Or.inl h.symm
  | gstr s =>
    rcases hc : cm s valid with _ | c
    · simp only [resolveMetric, hc] at h
      split at h
      · split at h <;> (injection h with h2; exact Or.inl h2.symm)
      · injection h with h2
        exact Or.inl h2.symm
    · simp only [resolveMetric, hc] at h
      split at h
      · injection h with h2
        exact Or.inr (h2 ▸ hcm s valid c hc)
      · injection h with h2
        exact Or.inl h2.symm
  | gnum n =>
    simp only [resolveMetric] at h
    split at h
    · cases h
    · injection h with h2
      exact Or.inl h2.symm
  | gbool b =>
    simp only [resolveMetric] at h
    split at h
    · cases h
    · injection h with h2
      exact Or.inl h2.symm

/-- A validated group-by is None, a dataframe column, or one of the two
falsy non-string leftovers (the number 0 or false). -/
theorem resolveGroupBy_spec (cm : String → List String → Option String)
    (valid : List String) (g gout : GVal) (hcm : CmSpec cm)
    (h : resolveGroupBy cm valid g = some gout) :
    gout = GVal.gnull ∨ (∃ c, gout = GVal.gstr c ∧ c ∈ valid) ∨
      gout = GVal.gnum 0 ∨ gout = GVal.gbool false := by
  unfold resolveGroupBy at h
  split at h
  · injection h with h2
    exact Or.inl h2.symm
  · split at h
    · rename_i hnn htr
      cases g with
      | gnull => simp [gvalTruthy] at htr
      | gstr s =>
        rcases hc : cm s valid with _ | c <;> simp only [hc] at h
        · injection h with h3
          exact Or.inl h3.symm
        · injection h with h3
          exact Or.inr (Or.inl ⟨c, h3.symm, hcm s valid c hc⟩)
      | gnum n => simp at h
      | gbool b => simp at h
    · rename_i hnn htr
      injection h with h3
      cases g with
      | gnull => exact absurd (by simp [gvalStrLower]) hnn
      | gstr s =>
        have hs : s = "" := by
          by_contra hne
          exact htr (by simp [gvalTruthy, hne])
        subst hs
        exact absurd (by simp [gvalStrLower, lowerStr]) hnn
      | gnum n =>
        have hn : n = 0 := by
          by_contra hne
          exact htr (by simp [gvalTruthy, hne])
        subst hn
        exact Or.inr (Or.inr (Or.inl h3.symm))
      | gbool b =>
        have hb : b = false := by
          by_contra hne
          exact htr (by simp [gvalTruthy, Bool.of_not_eq_false hne])
        subst hb
        exact Or.inr (Or.inr (Or.inr h3.symm))

/-- Every object/category column is a dataframe column. -/
theorem objectCols_subset (cols : List Col) :
    ∀ c ∈ objectCols cols, c ∈ colNames cols := by
  intro c hc
  simp only [objectCols, List.mem_map, List.mem_filter] at hc
  obtain ⟨x, ⟨hx, -⟩, rfl⟩ := hc
  exact List.mem_map_of_mem Col.name hx

/-- The pie check either leaves the group-by unchanged or installs the
first object/category column. -/
theorem pieCheck_snd (cols : List Col) (viz : String) (gb : GVal) :
    (pieCheck cols viz gb).2 = gb ∨
    ∃ c rest, objectCols cols = c :: rest ∧ (pieCheck cols viz gb).2 = GVal.gstr c := by
  unfold pieCheck
  split
  · rcases ho : objectCols cols with _ | ⟨c, rest⟩
    · simp [ho]
    · exact Or.inr ⟨c, rest, rfl, by simp⟩
  · exact Or.inl rfl

/-- Invariants of a single validated plan: the aggregation function is one
of the five allowed; the metric is "count" or a dataframe column; the group
by is None, a dataframe column, or a falsy non-string leftover; and a
big_number_total plan has no group-by. -/
theorem validateOne_inv (cm : String → List String → Option String) (cols : List Col)
    (p : PlanIn) (q : PlanOut) (hcm : CmSpec cm)
    (h : validateOne cm cols p = some q) :
    q.aggFunc ∈ aggFuncs ∧
    (q.metric = "count" ∨ q.metric ∈ colNames cols) ∧
    (q.groupBy = GVal.gnull ∨ (∃ c, q.groupBy = GVal.gstr c ∧ c ∈ colNames cols) ∨
      q.groupBy = GVal.gnum 0 ∨ q.groupBy = GVal.gbool false) ∧
    (q.vizType = "big_number_total" → q.groupBy = GVal.gnull) := by
  rcases hm : resolveMetric cm (colNames cols) p.metric with _ | metric
  · simp [validateOne, hm] at h
  rcases hg : resolveGroupBy cm (colNames cols) p.groupBy with _ | gb0
  · simp [validateOne, hm, hg] at h
  simp only [validateOne, hm, hg, Option.some.injEq] at h
  subst h
  refine ⟨?_, ?_, ?_, ?_⟩
  · dsimp only
    split
    · rename_i hmem
      split
      · decide
      · exact hmem
    · split
      · decide
      · decide
  · exact resolveMetric_spec cm (colNames cols) p.metric metric hcm hm
  · show bntCheck _ _ = GVal.gnull ∨ _
    unfold bntCheck
    split
    · exact Or.inl rfl
    · rcases pieCheck_snd cols (lineCheck cols
          (lowerStr (trimStr (p.vizType.getD "dist_bar"))) gb0) gb0 with hsnd | ⟨c, rest, ho, hsnd⟩
      · rw [hsnd]
        rcases resolveGroupBy_spec cm (colNames cols) p.groupBy gb0 hcm hg with
          h1 | ⟨c, h1, h2⟩ | h1 | h1
        · exact Or.inl h1
        · exact Or.inr (Or.inl ⟨c, h1, h2⟩)
        · exact Or.inr (Or.inr (Or.inl h1))
        · exact Or.inr (Or.inr (Or.inr h1))
      · rw [hsnd]
        exact Or.inr (Or.inl ⟨c, rfl,
          objectCols_subset cols c (ho ▸ List.mem_cons_self c rest)⟩)
  · intro hbnt
    show bntCheck _ _ = GVal.gnull
    unfold bntCheck
    split
    · rfl
    · rename_i hcond
      exact absurd (by simpa using hbnt) hcond

/-- C10 counterexample: the claim states every returned plan has
`group_by` equal to None or to a dataframe column.  A falsy non-string
`group_by` (here the JSON number 0) is in neither the "null"/"none"/""
string list nor truthy, so the validation loop leaves it unchanged
(lines 126-134) and, on a dist_bar plan, no later check touches it: the
returned plan carries `group_by = 0`, which is neither None nor a
column. -/
theorem C10_counterexample :
    validatePlans cmExact [⟨"a", Dtype.number⟩]
        [⟨none, some "dist_bar", GVal.gnull, none, GVal.gnum 0⟩]
      = some [⟨"Untitled Chart", "dist_bar", "count", "COUNT", GVal.gnum 0⟩] ∧
    GVal.gnum 0 ≠ GVal.gnull ∧ (∀ s, GVal.gnum 0 ≠ GVal.gstr s) := by
  refine ⟨by decide, by decide, fun s h => ?_⟩
  cases h

/-- C10 amended: every plan in the returned list has an aggregation
function among SUM/AVG/COUNT/MAX/MIN; a metric that is "count" or a
dataframe column; a group-by that is None, a dataframe column, or an
unchanged falsy non-string value from the input plan (the number 0 or
false); and a big_number_total plan has no group-by. -/
theorem C10_plan_invariants (cm : String → List String → Option String)
    (cols : List Col) (ps : List PlanIn) (out : List PlanOut) (hcm : CmSpec cm)
    (h : validatePlans cm cols ps = some out) :
    ∀ q ∈ out,
      q.aggFunc ∈ aggFuncs ∧
      (q.metric = "count" ∨ q.metric ∈ colNames cols) ∧
      (q.groupBy = GVal.gnull ∨ (∃ c, q.groupBy = GVal.gstr c ∧ c ∈ colNames cols) ∨
        q.groupBy = GVal.gnum 0 ∨ q.groupBy = GVal.gbool false) ∧
      (q.vizType = "big_number_total" → q.groupBy = GVal.gnull) := by
  induction ps generalizing out with
  | nil =>
    injection h with h2
    subst h2
    intro q hq
    cases hq
  | cons p ps ih =>
    rcases hv : validateOne cm cols p with _ | q0
    · rw [validatePlans, hv] at h
      cases h
    · rcases hr : validatePlans cm cols ps with _ | qs
      · rw [validatePlans, hv, hr] at h
        cases h
      · rw [validatePlans, hv, hr] at h
        injection h with h2
        subst h2
        intro q hq
        rcases List.mem_cons.mp hq with rfl | hmem
        · exact validateOne_inv cm cols p q hcm hv
        · exact ih qs hr q hmem

/-- C10 witness: the amended invariant applied to the concrete validated
plan of a pie plan over one categorical column. -/
theorem C10_witness :
    qW10.aggFunc ∈ aggFuncs ∧
    (qW10.metric = "count" ∨ qW10.metric ∈ colNames colsW10) ∧
    (qW10.groupBy = GVal.gnull ∨
      (∃ c, qW10.groupBy = GVal.gstr c ∧ c ∈ colNames colsW10) ∨
      qW10.groupBy = GVal.gnum 0 ∨ qW10.groupBy = GVal.gbool false) ∧
    (qW10.vizType = "big_number_total" → qW10.groupBy = GVal.gnull) :=
  C10_plan_invariants cmExact colsW10 psW10 [qW10] cmExact_spec (by decide)
    qW10 (List.mem_singleton.mpr rfl)

/-- C9: a plan whose sanitised viz_type is "line" and whose validated
group-by is absent, or is a column that is neither datetime-typed nor
date-named, is rewritten to "dist_bar"; a plan whose sanitised viz_type is
"pie" with no validated group-by acquires the first object/category column
as group-by, or, when the dataframe has none, is downgraded to
"big_number_total" (with no group-by). -/
theorem C9_line_and_pie_coercions (cm : String → List String → Option String)
    (cols : List Col) (p : PlanIn) (q : PlanOut)
    (hv : validateOne cm cols p = some q) :
    (lowerStr (trimStr (p.vizType.getD "dist_bar")) = "line" →
      (resolveGroupBy cm (colNames cols) p.groupBy = some GVal.gnull ∨
       ∃ c, resolveGroupBy cm (colNames cols) p.groupBy = some (GVal.gstr c) ∧
         (datetimeCols cols).contains c = false ∧ dateNamed c = false) →
      q.vizType = "dist_bar") ∧
    (lowerStr (trimStr (p.vizType.getD "dist_bar")) = "pie" →
      resolveGroupBy cm (colNames cols) p.groupBy = some GVal.gnull →
      ((∀ c rest, objectCols cols = c :: rest →
         q.vizType = "pie" ∧ q.groupBy = GVal.gstr c) ∧
       (objectCols cols = [] →
         q.vizType = "big_number_total" ∧ q.groupBy = GVal.gnull))) := by
  rcases hm : resolveMetric cm (colNames cols) p.metric with _ | metric
  · simp [validateOne, hm] at hv
  constructor
  · intro hviz hg2
    rcases hg2 with hg | ⟨c, hg, hdt, hdn⟩
    · simp only [validateOne, hm, hg, hviz, Option.some.injEq] at hv
      subst hv
      simp [lineCheck, pieCheck, isTimeGb, gvalTruthy]
    · have hIT : isTimeGb cols (GVal.gstr c) = false := by
        unfold isTimeGb
        split
        · show ((datetimeCols cols).contains c || dateNamed c) = false
          rw [hdt, hdn]
          rfl
        · rfl
      simp only [validateOne, hm, hg, hviz, Option.some.injEq] at hv
      subst hv
      simp [lineCheck, pieCheck, hIT]
  · intro hviz hg
    simp only [validateOne, hm, hg, hviz, Option.some.injEq] at hv
    subst hv
    constructor
    · intro c rest ho
      constructor <;>
        simp [lineCheck, pieCheck, bntCheck, isTimeGb, gvalTruthy, ho]
    · intro ho
      constructor <;>
        simp [lineCheck, pieCheck, bntCheck, isTimeGb, gvalTruthy, ho]

/-- C9 witness: over columns (region: object, sales: number), a line plan
grouped by the non-temporal column "region" comes back as dist_bar, and a
pie plan with no group-by acquires "region". -/
theorem C9_witness :
    (validateOne cmExact [⟨"region", Dtype.obj⟩, ⟨"sales", Dtype.number⟩]
        ⟨some "T", some "line", GVal.gstr "sales", some "SUM", GVal.gstr "region"⟩
      = some ⟨"T", "dist_bar", "sales", "SUM", GVal.gstr "region"⟩) ∧
    (⟨"T", "dist_bar", "sales", "SUM", GVal.gstr "region"⟩ : PlanOut).vizType
      = "dist_bar" := by
  refine ⟨by decide, ?_⟩
  exact (C9_line_and_pie_coercions cmExact [⟨"region", Dtype.obj⟩, ⟨"sales", Dtype.number⟩]
    ⟨some "T", some "line", GVal.gstr "sales", some "SUM", GVal.gstr "region"⟩
    ⟨"T", "dist_bar", "sales", "SUM", GVal.gstr "region"⟩ (by decide)).1
    (by decide)
    (Or.inr ⟨"region", by decide, by decide, by decide⟩)

/-- Boolean equality on node types, computed for the constructor pairs the
layout proofs meet. -/
@[simp] theorem beq_CHART_ROW : (NodeType.CHART == NodeType.ROW) = false := rfl

/-- ROW-typed entries compare equal to ROW. -/
@[simp] theorem beq_ROW_ROW : (NodeType.ROW == NodeType.ROW) = true := rfl

/-- A row key never equals a chart key. -/
@[simp] theorem beq_row_chart (t u : String) :
    (NodeId.row t == NodeId.chart u) = false := rfl

/-- A chart key never equals a row key. -/
@[simp] theorem beq_chart_row (t u : String) :
    (NodeId.chart t == NodeId.row u) = false := rfl

/-- The root key never equals a grid/row/chart key. -/
@[simp] theorem beq_root_grid : (NodeId.root == NodeId.grid) = false := rfl

/-- A root key never equals a chart key. -/
@[simp] theorem beq_root_chart (t : String) :
    (NodeId.root == NodeId.chart t) = false := rfl

/-- A grid key never equals a chart key. -/
@[simp] theorem beq_grid_chart (t : String) :
    (NodeId.grid == NodeId.chart t) = false := rfl

/-- A root key never equals a row key. -/
@[simp] theorem beq_root_row (t : String) :
    (NodeId.root == NodeId.row t) = false := rfl

/-- A grid key never equals a row key. -/
@[simp] theorem beq_grid_row (t : String) :
    (NodeId.grid == NodeId.row t) = false := rfl

/-- The ROW entries of the builder loop, computed. -/
theorem filter_row_pairsFrom {α : Type} (gen : Nat → String) (m : α → NodeMeta) :
    ∀ (xs : List α) (i : Nat),
      (pairsFrom gen m i xs).filter (fun p => p.2.ntype == NodeType.ROW)
        = rowEntriesFrom gen i xs := by
  intro xs
  induction xs with
  | nil => intro i; rfl
  | cons x xs ih =>
    intro i
    simp [pairsFrom, rowEntriesFrom, rowEntryAt, List.filter, ih (i + 1)]

/-- One ROW entry per loop element. -/
theorem rowEntriesFrom_length {α : Type} (gen : Nat → String) :
    ∀ (xs : List α) (i : Nat), (rowEntriesFrom gen i xs).length = xs.length := by
  intro xs
  induction xs with
  | nil => intro i; rfl
  | cons x xs ih => intro i; simp [rowEntriesFrom, ih (i + 1)]

/-- The keys of the ROW entries are exactly the accumulated grid
children. -/
theorem rowEntriesFrom_keys {α : Type} (gen : Nat → String) :
    ∀ (xs : List α) (i : Nat),
      (rowEntriesFrom gen i xs).map (fun p => p.1) = gridChildrenFrom gen i xs := by
  intro xs
  induction xs with
  | nil => intro i; rfl
  | cons x xs ih =>
    intro i
    simp [rowEntriesFrom, gridChildrenFrom, rowEntryAt, ih (i + 1)]

/-- Indexing the ROW entries. -/
theorem rowEntriesFrom_get {α : Type} (gen : Nat → String) :
    ∀ (xs : List α) (i j : Nat) (x : α), xs.get? j = some x →
      (rowEntriesFrom gen i xs).get? j = some (rowEntryAt gen (i + j)) := by
  intro xs
  induction xs with
  | nil => intro i j x h; simp at h
  | cons y ys ih =>
    intro i j x h
    cases j with
    | zero => simp [rowEntriesFrom]
    | succ j2 =>
      simp only [List.get?_cons_succ] at h
      have := ih (i + 1) j2 x h
      simp only [rowEntriesFrom, List.get?_cons_succ, this]
      have harith : i + 1 + j2 = i + (j2 + 1) := by omega
      rw [harith]

/-- Every entry of the builder loop is a canonical ROW or CHART entry. -/
theorem mem_pairsFrom {α : Type} (gen : Nat → String) (m : α → NodeMeta) :
    ∀ (xs : List α) (i0 : Nat) (p : NodeId × PNode), p ∈ pairsFrom gen m i0 xs →
      ∃ j x, xs.get? j = some x ∧
        (p = rowEntryAt gen (i0 + j) ∨ p = chartEntryAt gen m (i0 + j) x) := by
  intro xs
  induction xs with
  | nil => intro i0 p h; simp [pairsFrom] at h
  | cons y ys ih =>
    intro i0 p h
    simp only [pairsFrom, List.mem_cons] at h
    rcases h with rfl | rfl | h
    · exact ⟨0, y, rfl, Or.inl (by simp [rowEntryAt])⟩
    · exact ⟨0, y, rfl, Or.inr (by simp [chartEntryAt])⟩
    · obtain ⟨j, x, hx, hp⟩ := ih (i0 + 1) p h
      refine ⟨j + 1, x, by simpa using hx, ?_⟩
      have harith : i0 + 1 + j = i0 + (j + 1) := by omega
      rw [harith] at hp
      exact hp

/-- Finding the j-th CHART key inside the builder loop (needs tag
injectivity to skip the other CHART entries). -/
theorem find?_chart_pairsFrom {α : Type} (gen : Nat → String) (m : α → NodeMeta)
    (hinj : Function.Injective gen) :
    ∀ (xs : List α) (i0 j : Nat) (x : α), xs.get? j = some x →
      (pairsFrom gen m i0 xs).find?
          (fun p => p.1 == NodeId.chart (gen (2 * (i0 + j) + 1)))
        = some (chartEntryAt gen m (i0 + j) x) := by
  intro xs
  induction xs with
  | nil => intro i0 j x h; simp at h
  | cons y ys ih =>
    intro i0 j x h
    cases j with
    | zero =>
      injection h with h2
      subst h2
      simp [pairsFrom, chartEntryAt, List.find?]
    | succ j2 =>
      simp only [List.get?_cons_succ] at h
      have hne1 : (NodeId.row (gen (2 * i0)) == NodeId.chart
          (gen (2 * (i0 + (j2 + 1)) + 1))) = false := by
        simp
      have hne2 : (NodeId.chart (gen (2 * i0 + 1)) == NodeId.chart
          (gen (2 * (i0 + (j2 + 1)) + 1))) = false := by
        simp only [beq_eq_false_iff_ne, ne_eq, NodeId.chart.injEq]
        intro heq
        have := hinj heq
        omega
      have hrec := ih (i0 + 1) j2 x h
      have harith : i0 + 1 + j2 = i0 + (j2 + 1) := by omega
      rw [harith] at hrec
      simp only [pairsFrom, List.find?, hne1, hne2]
      exact hrec

/-- Finding the j-th ROW key inside the builder loop. -/
theorem find?_row_pairsFrom {α : Type} (gen : Nat → String) (m : α → NodeMeta)
    (hinj : Function.Injective gen) :
    ∀ (xs : List α) (i0 j : Nat) (x : α), xs.get? j = some x →
      (pairsFrom gen m i0 xs).find?
          (fun p => p.1 == NodeId.row (gen (2 * (i0 + j))))
        = some (rowEntryAt gen (i0 + j)) := by
  intro xs
  induction xs with
  | nil => intro i0 j x h; simp at h
  | cons y ys ih =>
    intro i0 j x h
    cases j with
    | zero =>
      simp [pairsFrom, rowEntryAt, List.find?]
    | succ j2 =>
      simp only [List.get?_cons_succ] at h
      have hne1 : (NodeId.row (gen (2 * i0)) == NodeId.row
          (gen (2 * (i0 + (j2 + 1))))) = false := by
        simp only [beq_eq_false_iff_ne, ne_eq, NodeId.row.injEq]
        intro heq
        have := hinj heq
        omega
      have hne2 : (NodeId.chart (gen (2 * i0 + 1)) == NodeId.row
          (gen (2 * (i0 + (j2 + 1))))) = false := by
        simp
      have hrec := ih (i0 + 1) j2 x h
      have harith : i0 + 1 + j2 = i0 + (j2 + 1) := by omega
      rw [harith] at hrec
      simp only [pairsFrom, List.find?, hne1, hne2]
      exact hrec

/-- CHART-typed nodes are not ROOT-typed. -/
@[simp] theorem beq_CHART_ROOT : (NodeType.CHART == NodeType.ROOT) = false := rfl

/-- ROW-typed nodes are not ROOT-typed. -/
@[simp] theorem beq_ROW_ROOT : (NodeType.ROW == NodeType.ROOT) = false := rfl

/-- GRID-typed nodes are not ROOT-typed. -/
@[simp] theorem beq_GRID_ROOT : (NodeType.GRID == NodeType.ROOT) = false := rfl

/-- ROOT compares equal to ROOT. -/
@[simp] theorem beq_ROOT_ROOT : (NodeType.ROOT == NodeType.ROOT) = true := rfl

/-- The ROOT entry is not ROW-typed. -/
@[simp] theorem beq_ROOT_ROW : (NodeType.ROOT == NodeType.ROW) = false := rfl

/-- The GRID entry is not ROW-typed. -/
@[simp] theorem beq_GRID_ROW : (NodeType.GRID == NodeType.ROW) = false := rfl

/-- Looking up GRID_ID in a built document yields the GRID node with the
accumulated children. -/
theorem lookupNode_buildPos_grid {α : Type} (gen : Nat → String) (m : α → NodeMeta)
    (xs : List α) :
    lookupNode (buildPos gen m xs) NodeId.grid
      = some (gridNode (gridChildrenFrom gen 0 xs)) := rfl

/-- Looking up ROOT_ID in a built document yields the ROOT node. -/
theorem lookupNode_buildPos_root {α : Type} (gen : Nat → String) (m : α → NodeMeta)
    (xs : List α) :
    lookupNode (buildPos gen m xs) NodeId.root = some rootNode := rfl

/-- Looking up the j-th CHART key in a built document. -/
theorem lookupNode_buildPos_chart {α : Type} (gen : Nat → String) (m : α → NodeMeta)
    (hinj : Function.Injective gen) (xs : List α) (j : Nat) (x : α)
    (hx : xs.get? j = some x) :
    lookupNode (buildPos gen m xs) (NodeId.chart (gen (2 * j + 1)))
      = some ⟨NodeType.CHART, NodeId.chart (gen (2 * j + 1)), [],
          [NodeId.root, NodeId.grid, NodeId.row (gen (2 * j))], some (m x)⟩ := by
  have hfind := find?_chart_pairsFrom gen m hinj xs 0 j x hx
  simp only [Nat.zero_add] at hfind
  simp [lookupNode, buildPos, List.find?, hfind, chartEntryAt]

/-- Looking up the j-th ROW key in a built document. -/
theorem lookupNode_buildPos_row {α : Type} (gen : Nat → String) (m : α → NodeMeta)
    (hinj : Function.Injective gen) (xs : List α) (j : Nat) (x : α)
    (hx : xs.get? j = some x) :
    lookupNode (buildPos gen m xs) (NodeId.row (gen (2 * j)))
      = some ⟨NodeType.ROW, NodeId.row (gen (2 * j)), [NodeId.chart (gen (2 * j + 1))],
          [NodeId.root, NodeId.grid], some rowMeta⟩ := by
  have hfind := find?_row_pairsFrom gen m hinj xs 0 j x hx
  simp only [Nat.zero_add] at hfind
  simp [lookupNode, buildPos, List.find?, hfind, rowEntryAt]

/-- The ROW entries of a built document, in document order. -/
theorem rowsOf_buildPos {α : Type} (gen : Nat → String) (m : α → NodeMeta)
    (xs : List α) :
    rowsOf (buildPos gen m xs) = rowEntriesFrom gen 0 xs := by
  simp [rowsOf, buildPos, List.filter, rootNode, gridNode, filter_row_pairsFrom]

/-- The erased builder-loop entries do not depend on the tag generator or
the start index. -/
theorem pairsFrom_skeleton {α : Type} (gen gen2 : Nat → String) (m : α → NodeMeta) :
    ∀ (xs : List α) (i j : Nat),
      (pairsFrom gen m i xs).map (fun p => (eraseTag p.1, erasePNode p.2))
        = (pairsFrom gen2 m j xs).map (fun p => (eraseTag p.1, erasePNode p.2)) := by
  intro xs
  induction xs with
  | nil => intro i j; rfl
  | cons x xs ih =>
    intro i j
    simp only [pairsFrom, List.map_cons]
    rw [ih (i + 1) (j + 1)]
    rfl

/-- The erased grid children do not depend on the tag generator or the
start index. -/
theorem gridChildrenFrom_skeleton {α : Type} (gen gen2 : Nat → String) :
    ∀ (xs : List α) (i j : Nat),
      (gridChildrenFrom gen i xs).map eraseTag
        = (gridChildrenFrom gen2 j xs).map eraseTag := by
  intro xs
  induction xs with
  | nil => intro i j; rfl
  | cons x xs ih =>
    intro i j
    simp [gridChildrenFrom, eraseTag, ih (i + 1) (j + 1)]

/-- Structural equivalence of re-invocations: the skeleton of a built
document does not depend on the tag generator. -/
theorem skeleton_buildPos {α : Type} (gen gen2 : Nat → String) (m : α → NodeMeta)
    (xs : List α) :
    skeleton (buildPos gen m xs) = skeleton (buildPos gen2 m xs) := by
  simp only [skeleton, buildPos, List.map_cons,
    pairsFrom_skeleton gen gen2 m xs 0 0]
  simp [erasePNode, gridNode, rootNode, eraseTag,
    gridChildrenFrom_skeleton gen gen2 xs 0 0]

/-- The built document satisfies the layout well-formedness for the chart
ids carried by the loop elements. -/
theorem layoutOK_buildPos {α : Type} (gen : Nat → String) (m : α → NodeMeta)
    (cid : α → Nat) (xs : List α) (hinj : Function.Injective gen)
    (hm : ∀ x, (m x).chartId = some (cid x) ∧ (m x).width = some 12) :
    layoutOK (buildPos gen m xs) (xs.map cid) := by
  refine ⟨?_, ?_, ?_, ?_⟩
  · rw [rowsOf_buildPos, rowEntriesFrom_length]
    simp
  · refine ⟨gridNode (gridChildrenFrom gen 0 xs), lookupNode_buildPos_grid gen m xs, ?_⟩
    rw [rowsOf_buildPos, rowEntriesFrom_keys]
    rfl
  · intro i c hc
    have hxi : ∃ x, xs.get? i = some x ∧ cid x = c := by
      rcases hx : xs.get? i with _ | x
      · rw [List.get?_map, hx] at hc
        cases hc
      · rw [List.get?_map, hx] at hc
        injection hc with h2
        exact ⟨x, rfl, h2⟩
    obtain ⟨x, hx, rfl⟩ := hxi
    refine ⟨rowEntryAt gen i, NodeId.chart (gen (2 * i + 1)), ?_, rfl, ?_⟩
    · rw [rowsOf_buildPos]
      simpa using rowEntriesFrom_get gen xs 0 i x hx
    · exact ⟨⟨NodeType.CHART, NodeId.chart (gen (2 * i + 1)), [],
          [NodeId.root, NodeId.grid, NodeId.row (gen (2 * i))], some (m x)⟩, m x,
        lookupNode_buildPos_chart gen m hinj xs i x hx, rfl, rfl, (hm x).1, (hm x).2⟩
  · intro p hp hchart
    simp only [buildPos, List.mem_cons] at hp
    rcases hp with rfl | rfl | hp
    · cases hchart
    · cases hchart
    · obtain ⟨j, x, hx, hcase⟩ := mem_pairsFrom gen m xs 0 p hp
      simp only [Nat.zero_add] at hcase
      rcases hcase with rfl | rfl
      · cases hchart
      · have hc := lookupNode_buildPos_chart gen m hinj xs j x hx
        have hr := lookupNode_buildPos_row gen m hinj xs j x hx
        have hg := lookupNode_buildPos_grid gen m xs
        have hroot := lookupNode_buildPos_root gen m xs
        have hl3 : ([NodeId.root, NodeId.grid, NodeId.row (gen (2 * j))] :
            List NodeId).getLast? = some (NodeId.row (gen (2 * j))) := rfl
        have hl2 : ([NodeId.root, NodeId.grid] : List NodeId).getLast?
            = some NodeId.grid := rfl
        have hl1 : ([NodeId.root] : List NodeId).getLast? = some NodeId.root := rfl
        show parentChainRoot _ (chartEntryAt gen m j x).1 4 = true
        simp [parentChainRoot, chartEntryAt, hc, hr, hg, hroot, gridNode, rootNode,
          hl3, hl2, hl1]

/-- C5: for every ordered list of chart identifiers, both layout builders
(`_add_charts_to_dashboard_direct` and `_add_charts_to_dashboard_api`, the
latter under the assumption that every chart's detail fetch succeeds)
produce a document with exactly one ROW per chart id in input order as the
GRID's children; each ROW has a single CHART child carrying that chart's
id at width 12; the GRID's children are exactly the ROW keys the document
defines; every CHART node's parent chain terminates at ROOT; and
re-invocation with a different (injective) tag generator yields a
structurally equivalent document (equal skeletons, identifiers erased). -/
theorem C5_layout_composer (gen gen2 : Nat → String) (chartIds : List Nat)
    (fetch : Nat → Option ChartInfo) (hinj : Function.Injective gen)
    (hfetch : ∀ c ∈ chartIds, ∃ info, fetch c = some info ∧ info.cid = c) :
    layoutOK (buildPositionDirect gen chartIds) chartIds ∧
    layoutOK (buildPositionApi gen fetch chartIds) chartIds ∧
    skeleton (buildPositionDirect gen chartIds)
      = skeleton (buildPositionDirect gen2 chartIds) ∧
    skeleton (buildPositionApi gen fetch chartIds)
      = skeleton (buildPositionApi gen2 fetch chartIds) := by
  have hmap : ∀ ids : List Nat,
      (∀ c ∈ ids, ∃ info, fetch c = some info ∧ info.cid = c) →
      (ids.filterMap fetch).map ChartInfo.cid = ids := by
    intro ids
    induction ids with
    | nil => intro _; rfl
    | cons c cs ih =>
      intro hall
      obtain ⟨info, hf, hc⟩ := hall c (List.mem_cons_self c cs)
      rw [List.filterMap_cons, hf]
      simp only [List.map_cons]
      rw [hc, ih (fun d hd => hall d (List.mem_cons_of_mem c hd))]
  refine ⟨?_, ?_, skeleton_buildPos gen gen2 directChartMeta chartIds,
    skeleton_buildPos gen gen2 apiChartMeta (chartIds.filterMap fetch)⟩
  · have h := layoutOK_buildPos gen directChartMeta id chartIds hinj
      (fun c => ⟨rfl, rfl⟩)
    simpa using h
  · have h := layoutOK_buildPos gen apiChartMeta ChartInfo.cid
      (chartIds.filterMap fetch) hinj (fun info => ⟨rfl, rfl⟩)
    rw [hmap chartIds hfetch] at h
    exact h

/-- The witness tag generator is injective (distinct lengths). -/
theorem genW_injective : Function.Injective genW := by
  intro a b h
  have h2 : List.replicate a 'a' = List.replicate b 'a' := congrArg String.data h
  have h3 := congrArg List.length h2
  simpa using h3

/-- C5 witness: both builders on chart ids [5, 9] with the concrete
injective generators and the always-succeeding fetch oracle. -/
theorem C5_witness :
    layoutOK (buildPositionDirect genW [5, 9]) [5, 9] ∧
    layoutOK (buildPositionApi genW fetchW [5, 9]) [5, 9] ∧
    skeleton (buildPositionDirect genW [5, 9])
      = skeleton (buildPositionDirect genW2 [5, 9]) ∧
    skeleton (buildPositionApi genW fetchW [5, 9])
      = skeleton (buildPositionApi genW2 fetchW [5, 9]) :=
  C5_layout_composer genW genW2 [5, 9] fetchW genW_injective
    (fun c _ => ⟨⟨c, none, none⟩, rfl, rfl⟩)
